import Mathlib

/-!
Shallow embedding of `src/node-graph/gcore/src/vector/vector_nodes.rs`
(Graphite's vector node library).

Scalars (`f32`/`f64`) are modelled as `ℚ`; floating-point rounding, infinities
and NaN are outside the model, so the `is_finite` guard on a rational value is
vacuously true.  Curve-math primitives (bezier_rs `Subpath` internals), the
style module, `VectorData`, `GraphicGroup` and the renderer's bounding-box
query live in this repository but outside the provided `src/` tree; they are
modelled from the spec where noted, with subpaths restricted to polylines
(anchors joined by straight segments), which is the shape every node in this
file produces and consumes.  External-library numerics that have no exact
rational counterpart (arc length, curve evaluation, rotation construction, π)
are taken as explicit function parameters, matching the spec's designation of
the curve/vector-math libraries as trusted external collaborators.
-/

/-- A 2D point / vector, modelling glam's `DVec2` over `ℚ`. -/
abbrev Vec2 : Type := ℚ × ℚ

/-- Modelled from the spec: the external 2D affine-transform library
(glam `DAffine2`, a consumed capability): a 2×2 linear part and a translation.
`transformPoint (x, y) = (m00*x + m01*y + tx, m10*x + m11*y + ty)`. -/
structure Affine where
  m00 : ℚ
  m01 : ℚ
  m10 : ℚ
  m11 : ℚ
  tx : ℚ
  ty : ℚ
deriving DecidableEq, Repr

/-- Apply the affine map to a point (glam `transform_point2`). -/
def Affine.transformPoint (T : Affine) (p : Vec2) : Vec2 :=
  (T.m00 * p.1 + T.m01 * p.2 + T.tx, T.m10 * p.1 + T.m11 * p.2 + T.ty)

/-- Apply only the linear part to a vector (glam `transform_vector2`). -/
def Affine.transformVector (T : Affine) (v : Vec2) : Vec2 :=
  (T.m00 * v.1 + T.m01 * v.2, T.m10 * v.1 + T.m11 * v.2)

/-- The identity transform (glam `DAffine2::IDENTITY`). -/
def Affine.identity : Affine :=
  { m00 := 1, m01 := 0, m10 := 0, m11 := 1, tx := 0, ty := 0 }

/-- A pure translation (glam `DAffine2::from_translation`). -/
def Affine.fromTranslation (t : Vec2) : Affine :=
  { m00 := 1, m01 := 0, m10 := 0, m11 := 1, tx := t.1, ty := t.2 }

/-- Composition, `(A.mul B).transformPoint p = A.transformPoint (B.transformPoint p)`
(glam's `*` on `DAffine2`). -/
def Affine.mul (A B : Affine) : Affine :=
  { m00 := A.m00 * B.m00 + A.m01 * B.m10
    m01 := A.m00 * B.m01 + A.m01 * B.m11
    m10 := A.m10 * B.m00 + A.m11 * B.m10
    m11 := A.m10 * B.m01 + A.m11 * B.m11
    tx := A.m00 * B.tx + A.m01 * B.ty + A.tx
    ty := A.m10 * B.tx + A.m11 * B.ty + A.ty }

/-- Determinant of the linear part. -/
def Affine.det (T : Affine) : ℚ :=
  T.m00 * T.m11 - T.m01 * T.m10

/-- Inverse (glam `DAffine2::inverse`); on a singular transform glam produces
non-finite junk, modelled here by `ℚ` division by zero yielding zero. -/
def Affine.inverse (T : Affine) : Affine :=
  let d := T.det
  let i00 := T.m11 / d
  let i01 := -T.m01 / d
  let i10 := -T.m10 / d
  let i11 := T.m00 / d
  { m00 := i00, m01 := i01, m10 := i10, m11 := i11
    tx := -(i00 * T.tx + i01 * T.ty)
    ty := -(i10 * T.tx + i11 * T.ty) }

/-- Modelled from the spec: a Path (bezier_rs `Subpath`, outside `src/`) is an
ordered sequence of anchor points connected by curve segments, open or closed;
restricted here to straight segments (polylines), the shape
`Subpath::from_anchors` builds. -/
structure Subpath where
  anchors : List Vec2
  closed : Bool
deriving DecidableEq, Repr

/-- Modelled from the spec: affine-transform application on a path
(bezier_rs `apply_transform`) maps every anchor through the transform. -/
def Subpath.applyTransform (sp : Subpath) (T : Affine) : Subpath :=
  { sp with anchors := sp.anchors.map T.transformPoint }

/-- Modelled from the spec: emptiness query (bezier_rs `is_empty`). -/
def Subpath.isEmpty (sp : Subpath) : Bool :=
  sp.anchors.isEmpty

/-- Modelled from the spec: `Subpath::from_anchors` builds a path from sample
anchors as straight-line-connected vertices with the given closed flag. -/
def Subpath.fromAnchors (anchors : List Vec2) (closed : Bool) : Subpath :=
  { anchors := anchors, closed := closed }

/-- Modelled from the spec: `Subpath::new_rect` builds the rectangle spanning
two corner points. -/
def Subpath.newRect (p0 p1 : Vec2) : Subpath :=
  { anchors := [p0, (p1.1, p0.2), p1, (p0.1, p1.2)], closed := true }

/-- Axis-aligned bounding box of a list of points: componentwise min and max,
`none` when the list is empty. -/
def pointsBoundingBox : List Vec2 → Option (Vec2 × Vec2)
  | [] => none
  | p :: rest =>
    some (rest.foldl
      (fun acc q => ((min acc.1.1 q.1, min acc.1.2 q.2), (max acc.2.1 q.1, max acc.2.2 q.2)))
      (p, p))

/-- Modelled from the spec: an RGBA color (the `Color` type, outside `src/`);
claims never inspect its channels. -/
structure Color where
  r : ℚ
  g : ℚ
  b : ℚ
  a : ℚ
deriving DecidableEq, Repr

/-- The gradient flavor (`GradientType`, outside `src/`). -/
inductive GradientType where
  | Linear
  | Radial
deriving DecidableEq, Repr

/-- Modelled from the spec: a gradient fill: type, start, end, transform and
ordered stop positions with optional colors.  The source's second endpoint
field is named `end`, a reserved word in Lean, rendered here as `stop`. -/
structure Gradient where
  start : Vec2
  stop : Vec2
  transform : Affine
  positions : List (ℚ × Option Color)
  gradient_type : GradientType
deriving DecidableEq, Repr

/-- Modelled from the spec: a fill is none, a solid color, or a gradient
(`Fill`, outside `src/`). -/
inductive Fill where
  | None
  | Solid (color : Color)
  | Gradient (gradient : Gradient)
deriving DecidableEq, Repr

/-- Line-cap flavor (`LineCap`, outside `src/`). -/
inductive LineCap where
  | Butt
  | Round
  | Square
deriving DecidableEq, Repr

/-- Line-join flavor (`LineJoin`, outside `src/`). -/
inductive LineJoin where
  | Miter
  | Bevel
  | Round
deriving DecidableEq, Repr

/-- Modelled from the spec: a stroke descriptor (`Stroke`, outside `src/`). -/
structure Stroke where
  color : Option Color
  weight : ℚ
  dash_lengths : List ℚ
  dash_offset : ℚ
  line_cap : LineCap
  line_join : LineJoin
  line_join_miter_limit : ℚ
deriving DecidableEq, Repr

/-- Modelled from the spec: the style of a scene: a fill and an optional
stroke (`PathStyle`, outside `src/`). -/
structure PathStyle where
  fill : Fill
  stroke : Option Stroke
deriving DecidableEq, Repr

/-- Modelled from the spec: style-set operations replace the corresponding
field wholesale (`PathStyle::set_fill`). -/
def PathStyle.setFill (s : PathStyle) (f : Fill) : PathStyle :=
  { s with fill := f }

/-- Modelled from the spec: `PathStyle::set_stroke` replaces the stroke. -/
def PathStyle.setStroke (s : PathStyle) (st : Stroke) : PathStyle :=
  { s with stroke := some st }

/-- The default style: no fill, no stroke. -/
def PathStyle.default : PathStyle :=
  { fill := Fill.None, stroke := none }

/-- Modelled from the spec: the alpha-blending descriptor (`AlphaBlending`,
outside `src/`); treated as opaque data by every node here. -/
structure AlphaBlending where
  opacity : ℚ
  blendMode : ℕ
deriving DecidableEq, Repr

/-- The default alpha-blending descriptor: fully opaque, normal mode. -/
def AlphaBlending.default : AlphaBlending :=
  { opacity := 1, blendMode := 0 }

/-- Modelled from the spec: Vector Scene Data (`VectorData`, outside `src/`):
an ordered sequence of paths, a style, a local-to-parent affine transform, a
per-path mirror-angle annotation list, and an alpha-blending descriptor. -/
structure VectorData where
  subpaths : List Subpath
  transform : Affine
  style : PathStyle
  mirror_angle : List ℚ
  alpha_blending : AlphaBlending
deriving DecidableEq, Repr

/-- Modelled from the spec: `VectorData::bounding_box` queries the axis-aligned
bounding box of all paths in local (untransformed) space; `none` when the scene
has no computable extent (no anchor points at all). -/
def VectorData.boundingBox (vd : VectorData) : Option (Vec2 × Vec2) :=
  pointsBoundingBox (vd.subpaths.flatMap Subpath.anchors)

/-- Modelled from the spec: `VectorData::from_subpaths` constructs scene data
from a sequence of paths with default transform and style. -/
def VectorData.fromSubpaths (subpaths : List Subpath) : VectorData :=
  { subpaths := subpaths
    transform := Affine.identity
    style := PathStyle.default
    mirror_angle := []
    alpha_blending := AlphaBlending.default }

/-- Modelled from the spec: the default (empty) scene data, `I::default()`
for `I = VectorData`. -/
def VectorData.defaultData : VectorData :=
  VectorData.fromSubpaths []

/-- Modelled from the spec: the renderer's bounding-box query
(`GraphicElementRendered::bounding_box(transform)`, outside `src/`): the
axis-aligned box of the scene's paths mapped through
`transform * self.transform`. -/
def VectorData.renderedBoundingBox (vd : VectorData) (transform : Affine) : Option (Vec2 × Vec2) :=
  pointsBoundingBox ((vd.subpaths.flatMap Subpath.anchors).map (transform.mul vd.transform).transformPoint)

/-! ## Numeric helpers for `f64` operations used by the nodes -/

/-- Rust `f64::round`: nearest integer, halves away from zero. -/
def roundAwayFromZero (x : ℚ) : ℤ :=
  if 0 ≤ x then ⌊x + 1 / 2⌋ else -⌊-x + 1 / 2⌋

/-- Truncation toward zero, as in Rust's float-to-integer casts and the
truncated quotient underlying the float `%` operator. -/
def ratTruncate (x : ℚ) : ℤ :=
  if 0 ≤ x then ⌊x⌋ else ⌈x⌉

/-- Rust's float remainder `x % y = x - y * trunc (x / y)`. -/
def ratFmod (x y : ℚ) : ℚ :=
  x - y * ratTruncate (x / y)

/-- `f64::EPSILON` = 2⁻⁵². -/
def f64Epsilon : ℚ :=
  1 / 2 ^ 52

/-- The fill-type selector argument of SetFill (`FillType`, outside `src/`). -/
inductive FillType where
  | None
  | Solid
  | Gradient
deriving DecidableEq, Repr

/-! ## The nodes of `vector_nodes.rs` -/

/-- `set_vector_data_fill` (SetFillNode): replaces the scene's fill according
to `fill_type`.  The parameter the source names `end` is `stop` here. -/
def set_vector_data_fill (vector_data : VectorData) (fill_type : FillType)
    (solid_color : Option Color) (gradient_type : GradientType)
    (start stop : Vec2) (transform : Affine)
    (positions : List (ℚ × Option Color)) : VectorData :=
  { vector_data with
    style := vector_data.style.setFill (match fill_type with
      | FillType.None | FillType.Solid =>
        match solid_color with
        | none => Fill.None
        | some c => Fill.Solid c
      | FillType.Gradient => Fill.Gradient
        { start := start, stop := stop, transform := transform
          positions := positions, gradient_type := gradient_type }) }

/-- `set_vector_data_stroke` (SetStrokeNode): replaces the stroke wholesale;
`f32` inputs are stored as `f64` (both are `ℚ` in this model). -/
def set_vector_data_stroke (vector_data : VectorData) (color : Option Color)
    (weight : ℚ) (dash_lengths : List ℚ) (dash_offset : ℚ)
    (line_cap : LineCap) (line_join : LineJoin) (miter_limit : ℚ) : VectorData :=
  { vector_data with
    style := vector_data.style.setStroke
      { color := color, weight := weight, dash_lengths := dash_lengths
        dash_offset := dash_offset, line_cap := line_cap, line_join := line_join
        line_join_miter_limit := miter_limit } }

/-- `repeat_vector_data` (RepeatNode): `count` copies of every path, the copy
at index `i` translated by `i ×` the direction mapped into local space by the
inverse of the current transform; copies pushed grouped by index. -/
def repeat_vector_data (vector_data : VectorData) (direction : Vec2) (count : ℕ) : VectorData :=
  let inverse := vector_data.transform.inverse
  let direction := inverse.transformVector direction
  let new_subpaths := (List.range count).foldl (fun acc (i : ℕ) =>
    let transform := Affine.fromTranslation ((i : ℚ) • direction)
    vector_data.subpaths.foldl (fun acc2 sp => acc2 ++ [sp.applyTransform transform]) acc) []
  { vector_data with subpaths := new_subpaths }

/-- `circular_repeat_vector_data` (CircularRepeatNode).  The external math
library's π constant and rotation constructor (`DAffine2::from_angle`) have no
exact rational counterpart and are taken as parameters `pi` and `from_angle`;
`to_radians` is `· * (pi / 180)`.  The source's `.unwrap()` on the bounding box
aborts when the box is not computable; that abort is the `none` outcome. -/
def circular_repeat_vector_data (pi : ℚ) (from_angle : ℚ → Affine)
    (vector_data : VectorData) (angle_offset radius : ℚ) (count : ℕ) : Option VectorData :=
  match vector_data.boundingBox with
  | none => none
  | some bounding_box =>
    let center := (1 / 2 : ℚ) • (bounding_box.1 + bounding_box.2)
    let base_transform := ((0 : ℚ), radius) - center
    let new_subpaths := (List.range count).foldl (fun acc (i : ℕ) =>
      let angle := (2 * pi / (count : ℚ)) * (i : ℚ) + angle_offset * (pi / 180)
      let rotation := from_angle angle
      let transform := (Affine.fromTranslation center).mul (rotation.mul (Affine.fromTranslation base_transform))
      vector_data.subpaths.foldl (fun acc2 sp => acc2 ++ [sp.applyTransform transform]) acc) []
    some { vector_data with subpaths := new_subpaths }

/-- `generate_bounding_box` (BoundingBoxNode): a fresh scene holding one
rectangle spanning the transformed corners of the input's bounding box; the
source's `.unwrap()` abort on a missing box is the `none` outcome. -/
def generate_bounding_box (vector_data : VectorData) : Option VectorData :=
  match vector_data.boundingBox with
  | none => none
  | some bounding_box =>
    some (VectorData.fromSubpaths [Subpath.newRect
      (vector_data.transform.transformPoint bounding_box.1)
      (vector_data.transform.transformPoint bounding_box.2)])

/-- `ConcatElement for VectorData`: append `other`'s paths transformed by
`transform * other.transform`, overwrite the style, extend the mirror-angle
list, overwrite the alpha-blending descriptor. -/
def VectorData.concat (self other : VectorData) (transform : Affine) : VectorData :=
  { self with
    subpaths := other.subpaths.foldl
      (fun acc sp => acc ++ [sp.applyTransform (transform.mul other.transform)]) self.subpaths
    style := other.style
    mirror_angle := self.mirror_angle ++ other.mirror_angle
    alpha_blending := other.alpha_blending }

/-- Modelled from the spec: a graphic element (outside `src/`) is polymorphic
content — vector data, a raster, or similar — carrying its own transform;
the claims treat the content as opaque. -/
inductive GraphicContent where
  | vector (v : VectorData)
  | raster (id : ℕ)
deriving DecidableEq, Repr

/-- Modelled from the spec: one element of a graphic group, with its own
transform (`transform()` / `transform_mut()`). -/
structure GraphicElement where
  transform : Affine
  content : GraphicContent
deriving DecidableEq, Repr

/-- Modelled from the spec: a Graphic Group (outside `src/`): an ordered
sequence of transform-bearing elements, a group transform, and a group-level
alpha-blending descriptor. -/
structure GraphicGroup where
  elements : List GraphicElement
  transform : Affine
  alpha_blending : AlphaBlending
deriving DecidableEq, Repr

/-- `ConcatElement for GraphicGroup`: push every element of `other` with its
own transform replaced by `transform * element.transform * other.transform`
(one-level flattening), and overwrite the alpha-blending descriptor. -/
def GraphicGroup.concat (self other : GraphicGroup) (transform : Affine) : GraphicGroup :=
  { self with
    elements := other.elements.foldl
      (fun acc e => acc ++ [{ e with transform := (transform.mul e.transform).mul other.transform }])
      self.elements
    alpha_blending := other.alpha_blending }

/-- `copy_to_points` (CopyToPoints), with the generic instance type
specialized to `VectorData` (the concrete `ConcatElement` in `src/`) and the
two upstream dependencies already evaluated under the shared Footprint — the
async awaits are the identity on the produced values in this model.  For each
anchor of the points scene (in world space), merges a copy of the instance
into an accumulator starting from the default value, translated by the anchor
plus `-0.5 * (b0 + b1)` of the instance's rendered bounding box at the
identity transform (`unwrap_or_default` yields the zero box). -/
def copy_to_points (points : VectorData) (inst : VectorData) : VectorData :=
  let points_list := points.subpaths.flatMap Subpath.anchors
  let instance_bounding_box := (inst.renderedBoundingBox Affine.identity).getD (0, 0)
  let instance_center := (-(1 / 2) : ℚ) • (instance_bounding_box.1 + instance_bounding_box.2)
  points_list.foldl (fun result point =>
    let translation := points.transform.transformPoint point + instance_center
    result.concat inst (Affine.fromTranslation translation)) VectorData.defaultData

/-- The sample count of `sample_points`: `round(used/spacing)` with adaptive
spacing, `floor(used/spacing + ε)` without. -/
def sampleCount (adaptive_spacing : Bool) (used_length spacing : ℚ) : ℤ :=
  if adaptive_spacing then roundAwayFromZero (used_length / spacing)
  else ⌊used_length / spacing + f64Epsilon⌋

/-- The `count + 1` sample anchors generated by `sample_points` for one path:
for index `c` in `0..=count`, the path (already in world space) is evaluated at
global-length parameter `(c/count * used_length_here + start_offset) / length`,
where `used_length_here` drops the remainder `used_length % spacing` unless
spacing is adaptive.  `evaluate` is the external curve library's
global-Euclidean-parameter evaluation. -/
def sampleAnchors (evaluate : Subpath → ℚ → Vec2) (subpath : Subpath)
    (adaptive_spacing : Bool) (used_length spacing start_offset length : ℚ)
    (count : ℤ) : List Vec2 :=
  (List.range (count.toNat + 1)).map fun (c : ℕ) =>
    let t_ratio := (c : ℚ) / (count : ℚ)
    let used_length_here :=
      if adaptive_spacing then used_length else used_length - ratFmod used_length spacing
    evaluate subpath ((t_ratio * used_length_here + start_offset) / length)

/-- The per-path body of `sample_points`' loop.  `arcLength` is the external
curve library's total arc-length query (`subpath.length(None)`).  A rational
spacing is always finite, so the source's `!spacing.is_finite()` test is
vacuous here.  Note that when `used_length ≤ 0` the source `continue`s after
having already transformed the path into world space, so the early exit
returns the world-space path. -/
def samplePointsSubpath (arcLength : Subpath → ℚ) (evaluate : Subpath → ℚ → Vec2)
    (transform : Affine) (spacing start_offset stop_offset : ℚ)
    (adaptive_spacing : Bool) (subpath : Subpath) : Subpath :=
  if subpath.isEmpty || spacing ≤ 0 then subpath
  else
    let world := subpath.applyTransform transform
    let length := arcLength world
    let used_length := length - start_offset - stop_offset
    if used_length ≤ 0 then world
    else
      let count := sampleCount adaptive_spacing used_length spacing
      let resampled :=
        if 1 ≤ count then
          Subpath.fromAnchors
            (sampleAnchors evaluate world adaptive_spacing used_length spacing start_offset length count)
            (world.closed && decide (1 < count.toNat))
        else world
      resampled.applyTransform transform.inverse

/-- `sample_points` (SamplePoints): arc-length resampling of every path. -/
def sample_points (arcLength : Subpath → ℚ) (evaluate : Subpath → ℚ → Vec2)
    (vector_data : VectorData) (spacing start_offset stop_offset : ℚ)
    (adaptive_spacing : Bool) : VectorData :=
  { vector_data with
    subpaths := vector_data.subpaths.map
      (samplePointsSubpath arcLength evaluate vector_data.transform
        spacing start_offset stop_offset adaptive_spacing) }

/-- `splines_from_points` (SplinesFromPointsNode): replace every path by the
external curve library's cubic-spline fit through its anchors
(`Subpath::new_cubic_spline`), taken as the parameter `newCubicSpline`. -/
def splines_from_points (newCubicSpline : List Vec2 → Subpath)
    (vector_data : VectorData) : VectorData :=
  { vector_data with
    subpaths := vector_data.subpaths.map (fun sp => newCubicSpline sp.anchors) }

/-- Length of one straight segment whose endpoints share a coordinate axis:
on axis-aligned segments `|Δx| + |Δy|` is the Euclidean length, giving an
exact rational instantiation of the external arc-length capability for the
axis-aligned polylines used as concrete inputs below. -/
def axisSegmentLength (p q : Vec2) : ℚ :=
  |q.1 - p.1| + |q.2 - p.2|

/-- Arc length of a polyline (closing segment included when closed), exact for
polylines all of whose segments are axis-aligned. -/
def rectilinearLength (sp : Subpath) : ℚ :=
  let pts := if sp.closed then sp.anchors ++ sp.anchors.take 1 else sp.anchors
  (pts.zip pts.tail).foldl (fun acc pq => acc + axisSegmentLength pq.1 pq.2) 0

/-! ## Helper lemmas -/

/-- Folding push-one-element is append-map. -/
theorem foldl_push_eq_append_map {α β : Type} (f : α → β) (l : List α) (init : List β) :
    l.foldl (fun acc x => acc ++ [f x]) init = init ++ l.map f := by
  induction l generalizing init with
  | nil => simp
  | cons x xs ih => simp [ih]

/-- Folding list-append is append-flatMap. -/
theorem foldl_append_eq_flatMap {α β : Type} (g : α → List β) (l : List α) (init : List β) :
    l.foldl (fun acc x => acc ++ g x) init = init ++ l.flatMap g := by
  induction l generalizing init with
  | nil => simp
  | cons x xs ih => simp [ih]

/-- A pure translation moves a point by its translation vector. -/
theorem Affine.transformPoint_fromTranslation (t p : Vec2) :
    (Affine.fromTranslation t).transformPoint p = p + t := by
  simp [Affine.fromTranslation, Affine.transformPoint, Prod.ext_iff]

/-- Translating by the zero vector is the identity on paths. -/
theorem Subpath.applyTransform_fromTranslation_zero (sp : Subpath) :
    sp.applyTransform (Affine.fromTranslation 0) = sp := by
  have h : (Affine.fromTranslation (0 : Vec2)).transformPoint = id := by
    funext p
    simp [Affine.transformPoint_fromTranslation]
  cases sp with
  | mk anchors closed =>
    simp [Subpath.applyTransform, h]

/-- Transforming a path does not change its closed flag. -/
theorem Subpath.applyTransform_closed (sp : Subpath) (T : Affine) :
    (sp.applyTransform T).closed = sp.closed := rfl

/-- The path list produced by `VectorData.concat`. -/
theorem VectorData.concat_subpaths (self other : VectorData) (transform : Affine) :
    (self.concat other transform).subpaths
      = self.subpaths
        ++ other.subpaths.map (fun sp => sp.applyTransform (transform.mul other.transform)) := by
  simp [VectorData.concat, foldl_push_eq_append_map]

/-- Summing a constant over `List.range`. -/
theorem sum_map_const_range (n m : ℕ) :
    ((List.range n).map (fun _ => m)).sum = n * m := by
  induction n with
  | zero => simp
  | succ k ih => simp [List.range_succ, ih, Nat.succ_mul]

/-- Nested push-loop over an index range, as the repeat nodes run it. -/
theorem double_foldl_push {α β : Type} (f : ℕ → α → β) (l : List α) (n : ℕ) :
    (List.range n).foldl (fun acc i => l.foldl (fun acc2 x => acc2 ++ [f i x]) acc) []
      = (List.range n).flatMap (fun i => l.map (f i)) := by
  have h : (fun (acc : List β) (i : ℕ) => l.foldl (fun acc2 x => acc2 ++ [f i x]) acc)
      = fun acc i => acc ++ l.map (f i) := by
    funext acc i
    exact foldl_push_eq_append_map _ _ _
  rw [h, foldl_append_eq_flatMap]
  simp

/-! ## Concrete values used by witnesses and counterexamples -/

/-- A closed right triangle, the spec's §8 scenario path. -/
def exampleTriangle : Subpath :=
  { anchors := [(0, 0), (4, 0), (4, 3)], closed := true }

/-- A scene holding the triangle under the identity transform. -/
def exampleScene : VectorData :=
  { subpaths := [exampleTriangle], transform := Affine.identity
    style := PathStyle.default, mirror_angle := [0]
    alpha_blending := AlphaBlending.default }

/-- The closed unit square: an axis-aligned polyline of arc length 4. -/
def exampleSquare : Subpath :=
  { anchors := [(0, 0), (1, 0), (1, 1), (0, 1)], closed := true }

/-- Uniform scaling by 2. -/
def scaleTwo : Affine :=
  { m00 := 2, m01 := 0, m10 := 0, m11 := 2, tx := 0, ty := 0 }

/-! ## Claims -/

/-- C1: when the scene's bounding box cannot be computed, CircularRepeat and
BoundingBox both fail by propagating the degenerate-geometry error (the
`none` outcome of the embedded `.unwrap()` abort) to the caller, never
substituting a default box: for every `VectorData` whose bounding-box query
yields no result, both operations return the error. -/
theorem circular_repeat_and_bounding_box_propagate_degenerate_error
    (pi : ℚ) (from_angle : ℚ → Affine) (vector_data : VectorData)
    (angle_offset radius : ℚ) (count : ℕ)
    (h : vector_data.boundingBox = none) :
    circular_repeat_vector_data pi from_angle vector_data angle_offset radius count = none ∧
    generate_bounding_box vector_data = none := by
  constructor
  · simp [circular_repeat_vector_data, h]
  · simp [generate_bounding_box, h]

/-- C1 witness: the empty scene has no bounding box, and both nodes report
the error on it. -/
theorem circular_repeat_and_bounding_box_propagate_degenerate_error_witness :
    (VectorData.fromSubpaths []).boundingBox = none ∧
    (circular_repeat_vector_data 3 (fun _ => Affine.identity)
        (VectorData.fromSubpaths []) 15 5 4 = none ∧
      generate_bounding_box (VectorData.fromSubpaths []) = none) :=
  ⟨rfl, circular_repeat_and_bounding_box_propagate_degenerate_error
    3 (fun _ => Affine.identity) (VectorData.fromSubpaths []) 15 5 4 rfl⟩

/-- C5: Repeat with `p` paths and count `n` produces exactly `n × p` paths,
grouped by translation index, the copy at index `i` translated by `i × d`
with `d` the direction mapped through the inverse scene transform; `n = 0`
gives the empty path set and `n = 1` the original paths unchanged. -/
theorem repeat_indexed_translated_copies (vector_data : VectorData)
    (direction : Vec2) (count : ℕ) :
    (repeat_vector_data vector_data direction count).subpaths
      = (List.range count).flatMap (fun i =>
          vector_data.subpaths.map (fun sp => sp.applyTransform
            (Affine.fromTranslation
              ((i : ℚ) • vector_data.transform.inverse.transformVector direction)))) ∧
    (repeat_vector_data vector_data direction count).subpaths.length
      = count * vector_data.subpaths.length ∧
    (count = 0 → (repeat_vector_data vector_data direction count).subpaths = []) ∧
    (count = 1 → (repeat_vector_data vector_data direction count).subpaths
      = vector_data.subpaths) := by
  have hmain : (repeat_vector_data vector_data direction count).subpaths
      = (List.range count).flatMap (fun i =>
          vector_data.subpaths.map (fun sp => sp.applyTransform
            (Affine.fromTranslation
              ((i : ℚ) • vector_data.transform.inverse.transformVector direction)))) := by
    simp only [repeat_vector_data]
    exact double_foldl_push _ _ _
  refine ⟨hmain, ?_, ?_, ?_⟩
  · rw [hmain, List.length_flatMap]
    simp only [List.map_map, Function.comp_def, List.length_map]
    exact sum_map_const_range count _
  · intro h0
    subst h0
    rw [hmain]
    simp
  · intro h1
    subst h1
    rw [hmain, List.range_succ, List.range_zero]
    simp only [List.nil_append, List.flatMap_cons, List.flatMap_nil, List.append_nil,
      Nat.cast_zero, zero_smul, Subpath.applyTransform_fromTranslation_zero, List.map_id']

/-- C5 witness: on the triangle scene, count 1 returns the original paths
and count 0 returns none. -/
theorem repeat_indexed_translated_copies_witness :
    (repeat_vector_data exampleScene (5, 0) 1).subpaths = exampleScene.subpaths ∧
    (repeat_vector_data exampleScene (5, 0) 0).subpaths = [] :=
  ⟨(repeat_indexed_translated_copies exampleScene (5, 0) 1).2.2.2 rfl,
   (repeat_indexed_translated_copies exampleScene (5, 0) 0).2.2.1 rfl⟩

/-- C6: `concat` on flat vector scene data appends one transformed copy of
every path of `other` (transformed by `transform * other.transform`),
overwrites the style and the alpha-blending descriptor with `other`'s, and
extends the mirror-angle list with `other`'s. -/
theorem concat_vector_data_spec (self other : VectorData) (transform : Affine) :
    (self.concat other transform).subpaths
      = self.subpaths ++ other.subpaths.map
          (fun sp => sp.applyTransform (transform.mul other.transform)) ∧
    (self.concat other transform).subpaths.length
      = self.subpaths.length + other.subpaths.length ∧
    (self.concat other transform).style = other.style ∧
    (self.concat other transform).mirror_angle
      = self.mirror_angle ++ other.mirror_angle ∧
    (self.concat other transform).mirror_angle.length
      = self.mirror_angle.length + other.mirror_angle.length ∧
    (self.concat other transform).alpha_blending = other.alpha_blending := by
  refine ⟨VectorData.concat_subpaths self other transform, ?_, rfl, rfl,
    by simp [VectorData.concat], rfl⟩
  rw [VectorData.concat_subpaths]
  simp

/-- C7: `concat` on graphic groups appends every element of `other` with its
own transform replaced by `transform * element.transform * other.transform`,
preserving element order and `self`'s pre-existing elements, and overwrites
`self`'s alpha-blending descriptor with `other`'s. -/
theorem concat_graphic_group_spec (self other : GraphicGroup) (transform : Affine) :
    (self.concat other transform).elements
      = self.elements ++ other.elements.map
          (fun e => { e with transform := (transform.mul e.transform).mul other.transform }) ∧
    (self.concat other transform).alpha_blending = other.alpha_blending ∧
    (self.concat other transform).transform = self.transform ∧
    ∀ i : ℕ, i < self.elements.length →
      (self.concat other transform).elements[i]? = self.elements[i]? := by
  have helems : (self.concat other transform).elements
      = self.elements ++ other.elements.map
          (fun e => { e with transform := (transform.mul e.transform).mul other.transform }) := by
    simp [GraphicGroup.concat, foldl_push_eq_append_map]
  refine ⟨helems, rfl, rfl, ?_⟩
  intro i hi
  rw [helems]
  exact List.getElem?_append_left hi

/-- A one-element group under the identity transform. -/
def exampleGroupA : GraphicGroup :=
  { elements := [{ transform := Affine.identity, content := GraphicContent.raster 1 }]
    transform := Affine.identity, alpha_blending := AlphaBlending.default }

/-- A one-element group scaled by two with a non-default blend. -/
def exampleGroupB : GraphicGroup :=
  { elements := [{ transform := scaleTwo, content := GraphicContent.raster 2 }]
    transform := scaleTwo, alpha_blending := { opacity := 1 / 2, blendMode := 3 } }

/-- C7 witness: merging the concrete groups keeps `self`'s first element in
place. -/
theorem concat_graphic_group_spec_witness :
    0 < exampleGroupA.elements.length ∧
    (exampleGroupA.concat exampleGroupB scaleTwo).elements[0]?
      = exampleGroupA.elements[0]? :=
  ⟨by decide,
   (concat_graphic_group_spec exampleGroupA exampleGroupB scaleTwo).2.2.2 0 (by decide)⟩

/-- C9: SetFill replaces only the style's fill: for fill type None or Solid
the new fill is Solid(solid_color) when present, no fill otherwise, with
gradient parameters ignored; for fill type Gradient it is the gradient built
from the remaining parameters regardless of solid_color; paths, transform and
the rest of the scene (including the stroke) are untouched. -/
theorem set_fill_spec (vector_data : VectorData) (fill_type : FillType)
    (solid_color : Option Color) (gradient_type : GradientType)
    (start stop : Vec2) (transform : Affine)
    (positions : List (ℚ × Option Color)) :
    ((fill_type = FillType.None ∨ fill_type = FillType.Solid) →
      (set_vector_data_fill vector_data fill_type solid_color gradient_type start stop
          transform positions).style.fill
        = match solid_color with
          | none => Fill.None
          | some c => Fill.Solid c) ∧
    (fill_type = FillType.Gradient →
      (set_vector_data_fill vector_data fill_type solid_color gradient_type start stop
          transform positions).style.fill
        = Fill.Gradient { start := start, stop := stop, transform := transform,
                          positions := positions, gradient_type := gradient_type }) ∧
    (set_vector_data_fill vector_data fill_type solid_color gradient_type start stop
        transform positions).subpaths = vector_data.subpaths ∧
    (set_vector_data_fill vector_data fill_type solid_color gradient_type start stop
        transform positions).transform = vector_data.transform ∧
    (set_vector_data_fill vector_data fill_type solid_color gradient_type start stop
        transform positions).style.stroke = vector_data.style.stroke ∧
    (set_vector_data_fill vector_data fill_type solid_color gradient_type start stop
        transform positions).mirror_angle = vector_data.mirror_angle ∧
    (set_vector_data_fill vector_data fill_type solid_color gradient_type start stop
        transform positions).alpha_blending = vector_data.alpha_blending := by
  refine ⟨?_, ?_, rfl, rfl, ?_, rfl, rfl⟩
  · rintro (rfl | rfl) <;> rfl
  · rintro rfl
    rfl
  · cases fill_type <;> rfl

/-- A pure red color. -/
def exampleColor : Color := { r := 1, g := 0, b := 0, a := 1 }

/-- C9 witness: concrete Solid and Gradient invocations. -/
theorem set_fill_spec_witness :
    (set_vector_data_fill exampleScene FillType.Solid (some exampleColor) GradientType.Linear
        (0, 0) (1, 1) Affine.identity []).style.fill = Fill.Solid exampleColor ∧
    (set_vector_data_fill exampleScene FillType.Gradient (some exampleColor) GradientType.Linear
        (0, 0) (1, 1) Affine.identity []).style.fill
      = Fill.Gradient { start := (0, 0), stop := (1, 1), transform := Affine.identity,
                        positions := [], gradient_type := GradientType.Linear } :=
  ⟨(set_fill_spec exampleScene FillType.Solid (some exampleColor) GradientType.Linear
      (0, 0) (1, 1) Affine.identity []).1 (Or.inr rfl),
   (set_fill_spec exampleScene FillType.Gradient (some exampleColor) GradientType.Linear
      (0, 0) (1, 1) Affine.identity []).2.1 rfl⟩

/-- C10: Repeat, CircularRepeat, SamplePoints and SplinesFromPointsNode
modify only the scene's path list: the transform, style, mirror-angle list
and alpha-blending descriptor of every normal result equal the input's. -/
theorem geometry_nodes_preserve_frame
    (vector_data : VectorData) (direction : Vec2) (count : ℕ)
    (pi angle_offset radius : ℚ) (from_angle : ℚ → Affine)
    (arcLength : Subpath → ℚ) (evaluate : Subpath → ℚ → Vec2)
    (spacing start_offset stop_offset : ℚ) (adaptive_spacing : Bool)
    (newCubicSpline : List Vec2 → Subpath) :
    ((repeat_vector_data vector_data direction count).transform = vector_data.transform ∧
      (repeat_vector_data vector_data direction count).style = vector_data.style ∧
      (repeat_vector_data vector_data direction count).mirror_angle
        = vector_data.mirror_angle ∧
      (repeat_vector_data vector_data direction count).alpha_blending
        = vector_data.alpha_blending) ∧
    (∀ out : VectorData,
      circular_repeat_vector_data pi from_angle vector_data angle_offset radius count
          = some out →
        out.transform = vector_data.transform ∧ out.style = vector_data.style ∧
        out.mirror_angle = vector_data.mirror_angle ∧
        out.alpha_blending = vector_data.alpha_blending) ∧
    ((sample_points arcLength evaluate vector_data spacing start_offset stop_offset
          adaptive_spacing).transform = vector_data.transform ∧
      (sample_points arcLength evaluate vector_data spacing start_offset stop_offset
          adaptive_spacing).style = vector_data.style ∧
      (sample_points arcLength evaluate vector_data spacing start_offset stop_offset
          adaptive_spacing).mirror_angle = vector_data.mirror_angle ∧
      (sample_points arcLength evaluate vector_data spacing start_offset stop_offset
          adaptive_spacing).alpha_blending = vector_data.alpha_blending) ∧
    ((splines_from_points newCubicSpline vector_data).transform = vector_data.transform ∧
      (splines_from_points newCubicSpline vector_data).style = vector_data.style ∧
      (splines_from_points newCubicSpline vector_data).mirror_angle
        = vector_data.mirror_angle ∧
      (splines_from_points newCubicSpline vector_data).alpha_blending
        = vector_data.alpha_blending) := by
  refine ⟨⟨rfl, rfl, rfl, rfl⟩, ?_, ⟨rfl, rfl, rfl, rfl⟩, ⟨rfl, rfl, rfl, rfl⟩⟩
  intro out hout
  unfold circular_repeat_vector_data at hout
  cases hbb : vector_data.boundingBox with
  | none =>
    rw [hbb] at hout
    simp at hout
  | some bb =>
    rw [hbb] at hout
    simp only [Option.some.injEq] at hout
    subst hout
    exact ⟨rfl, rfl, rfl, rfl⟩

/-- C10 witness: concrete runs of all four nodes preserve the frame fields;
the circular case is exercised on its (existing) `some` result. -/
theorem geometry_nodes_preserve_frame_witness :
    (circular_repeat_vector_data 3 (fun _ => Affine.identity) exampleScene 15 5 2).isSome
      = true ∧
    (repeat_vector_data exampleScene (5, 0) 2).style = exampleScene.style ∧
    ((circular_repeat_vector_data 3 (fun _ => Affine.identity) exampleScene 15 5 2).getD
        VectorData.defaultData).transform = exampleScene.transform ∧
    (sample_points rectilinearLength (fun _ _ => (0, 0)) exampleScene 1 0 0 true).mirror_angle
      = exampleScene.mirror_angle ∧
    (splines_from_points (fun l => Subpath.fromAnchors l false) exampleScene).alpha_blending
      = exampleScene.alpha_blending := by
  have h := geometry_nodes_preserve_frame exampleScene (5, 0) 2 3 15 5
    (fun _ => Affine.identity) rectilinearLength (fun _ _ => (0, 0)) 1 0 0 true
    (fun l => Subpath.fromAnchors l false)
  have hs : (circular_repeat_vector_data 3 (fun _ => Affine.identity)
      exampleScene 15 5 2).isSome = true := by
    unfold circular_repeat_vector_data
    rw [show exampleScene.boundingBox = some ((0, 0), (4, 3)) from by decide]
    rfl
  have hsome : circular_repeat_vector_data 3 (fun _ => Affine.identity) exampleScene 15 5 2
      = some ((circular_repeat_vector_data 3 (fun _ => Affine.identity)
          exampleScene 15 5 2).getD VectorData.defaultData) := by
    cases hc : circular_repeat_vector_data 3 (fun _ => Affine.identity) exampleScene 15 5 2 with
    | none => rw [hc] at hs; cases hs
    | some v => rfl
  exact ⟨hs, h.1.2.1, (h.2.1 _ hsome).1, h.2.2.1.2.2.1, h.2.2.2.2.2.2⟩

/-- Summing a constant over any list. -/
theorem sum_map_const {α : Type} (l : List α) (m : ℕ) :
    (l.map (fun _ => m)).sum = l.length * m := by
  induction l with
  | nil => simp
  | cons x xs ih => simp [ih, Nat.succ_mul, Nat.add_comm]

/-- The subpaths accumulated by the CopyToPoints merge loop. -/
theorem copy_fold_subpaths (inst : VectorData) (f : Vec2 → Vec2)
    (l : List Vec2) (acc : VectorData) :
    (l.foldl (fun result point =>
        result.concat inst (Affine.fromTranslation (f point))) acc).subpaths
      = acc.subpaths ++ l.flatMap (fun p =>
          inst.subpaths.map (fun sp =>
            sp.applyTransform ((Affine.fromTranslation (f p)).mul inst.transform))) := by
  induction l generalizing acc with
  | nil => simp
  | cons x xs ih =>
    rw [List.foldl_cons, ih, VectorData.concat_subpaths]
    simp

/-- Placing the box center `(1/2) • s` under a translation by `w - (1/2) • s`
lands it on `w`. -/
theorem center_translation_cancel (w s : Vec2) :
    (1 / 2 : ℚ) • s + (w + (-(1 / 2) : ℚ) • s) = w := by
  have h0 : (1 / 2 : ℚ) • s + (-(1 / 2) : ℚ) • s = 0 := by
    rw [← add_smul]
    norm_num
  calc (1 / 2 : ℚ) • s + (w + (-(1 / 2) : ℚ) • s)
      = w + ((1 / 2 : ℚ) • s + (-(1 / 2) : ℚ) • s) := by abel
    _ = w := by rw [h0, add_zero]

/-- C4: CopyToPoints merges exactly one translated instance copy per anchor
of the points scene (enumerated path by path, anchors in order), starting
from the default value; each copy's translation puts the instance's
bounding-box center on the world-space anchor (the anchor mapped through the
points scene's transform), and a missing instance bounding box contributes a
zero offset. -/
theorem copy_to_points_instances (points inst : VectorData) :
    (copy_to_points points inst).subpaths
      = (points.subpaths.flatMap Subpath.anchors).flatMap (fun p =>
          inst.subpaths.map (fun sp => sp.applyTransform
            ((Affine.fromTranslation (points.transform.transformPoint p
                + (-(1 / 2) : ℚ) • (((inst.renderedBoundingBox Affine.identity).getD (0, 0)).1
                  + ((inst.renderedBoundingBox Affine.identity).getD (0, 0)).2))).mul
              inst.transform))) ∧
    (copy_to_points points inst).subpaths.length
      = (points.subpaths.flatMap Subpath.anchors).length * inst.subpaths.length ∧
    (∀ bb : Vec2 × Vec2, inst.renderedBoundingBox Affine.identity = some bb → ∀ p : Vec2,
      (Affine.fromTranslation (points.transform.transformPoint p
          + (-(1 / 2) : ℚ) • (bb.1 + bb.2))).transformPoint ((1 / 2 : ℚ) • (bb.1 + bb.2))
        = points.transform.transformPoint p) ∧
    (inst.renderedBoundingBox Affine.identity = none → ∀ p : Vec2,
      points.transform.transformPoint p
          + (-(1 / 2) : ℚ) • (((inst.renderedBoundingBox Affine.identity).getD (0, 0)).1
            + ((inst.renderedBoundingBox Affine.identity).getD (0, 0)).2)
        = points.transform.transformPoint p) := by
  have hmain : (copy_to_points points inst).subpaths
      = (points.subpaths.flatMap Subpath.anchors).flatMap (fun p =>
          inst.subpaths.map (fun sp => sp.applyTransform
            ((Affine.fromTranslation (points.transform.transformPoint p
                + (-(1 / 2) : ℚ) • (((inst.renderedBoundingBox Affine.identity).getD (0, 0)).1
                  + ((inst.renderedBoundingBox Affine.identity).getD (0, 0)).2))).mul
              inst.transform))) := by
    simp only [copy_to_points]
    rw [copy_fold_subpaths inst (fun p => points.transform.transformPoint p
      + (-(1 / 2) : ℚ) • (((inst.renderedBoundingBox Affine.identity).getD (0, 0)).1
        + ((inst.renderedBoundingBox Affine.identity).getD (0, 0)).2))]
    simp [VectorData.defaultData, VectorData.fromSubpaths]
  refine ⟨hmain, ?_, ?_, ?_⟩
  · rw [hmain, List.length_flatMap]
    simp only [List.map_map, Function.comp_def, List.length_map]
    exact sum_map_const _ _
  · intro bb hbb p
    rw [Affine.transformPoint_fromTranslation]
    exact center_translation_cancel _ _
  · intro h p
    rw [h]
    simp

/-- The unit-square instance scene. -/
def exampleInstance : VectorData :=
  { subpaths := [exampleSquare], transform := Affine.identity
    style := PathStyle.default, mirror_angle := [], alpha_blending := AlphaBlending.default }

/-- C4 witness: the square instance has box `[(0,0),(1,1)]`; its center lands
on the triangle's anchor `(4,3)`, the merge count is `3 × 1`, and an empty
instance contributes a zero offset. -/
theorem copy_to_points_instances_witness :
    exampleInstance.renderedBoundingBox Affine.identity = some ((0, 0), (1, 1)) ∧
    (Affine.fromTranslation (exampleScene.transform.transformPoint (4, 3)
        + (-(1 / 2) : ℚ) • (((0, 0) : Vec2) + ((1, 1) : Vec2)))).transformPoint
        ((1 / 2 : ℚ) • (((0, 0) : Vec2) + ((1, 1) : Vec2)))
      = exampleScene.transform.transformPoint (4, 3) ∧
    (copy_to_points exampleScene exampleInstance).subpaths.length
      = (exampleScene.subpaths.flatMap Subpath.anchors).length
          * exampleInstance.subpaths.length ∧
    (VectorData.fromSubpaths []).renderedBoundingBox Affine.identity = none ∧
    exampleScene.transform.transformPoint (4, 3)
        + (-(1 / 2) : ℚ) • ((((VectorData.fromSubpaths []).renderedBoundingBox
              Affine.identity).getD (0, 0)).1
            + (((VectorData.fromSubpaths []).renderedBoundingBox Affine.identity).getD (0, 0)).2)
      = exampleScene.transform.transformPoint (4, 3) := by
  have hbb : exampleInstance.renderedBoundingBox Affine.identity = some ((0, 0), (1, 1)) := by
    norm_num [VectorData.renderedBoundingBox, exampleInstance, exampleSquare, pointsBoundingBox,
      Affine.mul, Affine.identity, Affine.transformPoint, min_def, max_def]
  have hnone : (VectorData.fromSubpaths []).renderedBoundingBox Affine.identity = none := rfl
  exact ⟨hbb,
    (copy_to_points_instances exampleScene exampleInstance).2.2.1 ((0, 0), (1, 1)) hbb (4, 3),
    (copy_to_points_instances exampleScene exampleInstance).2.1,
    hnone,
    (copy_to_points_instances exampleScene (VectorData.fromSubpaths [])).2.2.2 hnone (4, 3)⟩

/-- The entry guard of the sample loop is false for a non-empty path and
positive spacing. -/
theorem samplePointsSubpath_guard_false {subpath : Subpath} {spacing : ℚ}
    (h1 : subpath.isEmpty = false) (h2 : 0 < spacing) :
    (subpath.isEmpty || decide (spacing ≤ 0)) = false := by
  rw [h1]
  simp only [Bool.false_or, decide_eq_false_iff_not, not_le]
  exact h2

/-- The early exit of the sample loop at non-positive usable length returns
the path still transformed into world space. -/
theorem samplePointsSubpath_skip_world (arcLength : Subpath → ℚ)
    (evaluate : Subpath → ℚ → Vec2) (transform : Affine)
    (spacing start_offset stop_offset : ℚ) (adaptive_spacing : Bool) (subpath : Subpath)
    (h1 : subpath.isEmpty = false) (h2 : 0 < spacing)
    (h3 : arcLength (subpath.applyTransform transform) - start_offset - stop_offset ≤ 0) :
    samplePointsSubpath arcLength evaluate transform spacing start_offset stop_offset
        adaptive_spacing subpath
      = subpath.applyTransform transform := by
  have hguard : ¬ ((subpath.isEmpty || decide (spacing ≤ 0)) = true) := by
    rw [samplePointsSubpath_guard_false h1 h2]
    simp
  simp only [samplePointsSubpath]
  rw [if_neg hguard, if_pos h3]

/-- The resampling branch of the sample loop: positive usable length and
count ≥ 1 replace the path by the generated samples, closed when the source
was closed and count exceeds 1, mapped back by the inverse transform. -/
theorem samplePointsSubpath_resample (arcLength : Subpath → ℚ)
    (evaluate : Subpath → ℚ → Vec2) (transform : Affine)
    (spacing start_offset stop_offset : ℚ) (adaptive_spacing : Bool) (subpath : Subpath)
    (h1 : subpath.isEmpty = false) (h2 : 0 < spacing)
    (h3 : 0 < arcLength (subpath.applyTransform transform) - start_offset - stop_offset)
    (h4 : 1 ≤ sampleCount adaptive_spacing
      (arcLength (subpath.applyTransform transform) - start_offset - stop_offset) spacing) :
    samplePointsSubpath arcLength evaluate transform spacing start_offset stop_offset
        adaptive_spacing subpath
      = (Subpath.fromAnchors
          (sampleAnchors evaluate (subpath.applyTransform transform) adaptive_spacing
            (arcLength (subpath.applyTransform transform) - start_offset - stop_offset)
            spacing start_offset (arcLength (subpath.applyTransform transform))
            (sampleCount adaptive_spacing
              (arcLength (subpath.applyTransform transform) - start_offset - stop_offset)
              spacing))
          ((subpath.applyTransform transform).closed
            && decide (1 < (sampleCount adaptive_spacing
              (arcLength (subpath.applyTransform transform) - start_offset - stop_offset)
              spacing).toNat))).applyTransform transform.inverse := by
  have hguard : ¬ ((subpath.isEmpty || decide (spacing ≤ 0)) = true) := by
    rw [samplePointsSubpath_guard_false h1 h2]
    simp
  simp only [samplePointsSubpath]
  rw [if_neg hguard, if_neg (not_le.mpr h3), if_pos h4]

/-- The identity transform fixes every point. -/
theorem Affine.transformPoint_identity : Affine.identity.transformPoint = id := by
  funext p
  cases p with
  | mk a b => simp [Affine.identity, Affine.transformPoint]

/-- The identity transform fixes every path. -/
theorem Subpath.applyTransform_identity (sp : Subpath) :
    sp.applyTransform Affine.identity = sp := by
  cases sp with
  | mk anchors closed => simp [Subpath.applyTransform, Affine.transformPoint_identity]

/-- A transformed path has as many anchors as its source. -/
theorem Subpath.applyTransform_anchors_length (sp : Subpath) (T : Affine) :
    ((sp.applyTransform T)).anchors.length = sp.anchors.length := by
  simp [Subpath.applyTransform]

/-- The sample generator always produces `count + 1` anchors. -/
theorem sampleAnchors_length (evaluate : Subpath → ℚ → Vec2) (subpath : Subpath)
    (adaptive_spacing : Bool) (used_length spacing start_offset length : ℚ) (count : ℤ) :
    (sampleAnchors evaluate subpath adaptive_spacing used_length spacing start_offset
        length count).length = count.toNat + 1 := by
  simp [sampleAnchors]

/-- The unit square's polyline arc length, closing segment included. -/
theorem exampleSquare_length : rectilinearLength exampleSquare = 4 := by
  norm_num [rectilinearLength, exampleSquare, axisSegmentLength]

/-- At spacing 4, the adaptive sample count over the square is 1. -/
theorem exampleSquare_count_one :
    sampleCount true
      (rectilinearLength (exampleSquare.applyTransform Affine.identity) - 0 - 0) 4 = 1 := by
  rw [Subpath.applyTransform_identity, exampleSquare_length]
  norm_num [sampleCount, roundAwayFromZero]

/-- C3 counterexample: the closed unit square resampled adaptively with
spacing 4 yields count = 1, i.e. two samples — more than one sample — yet
the replacement path is NOT marked closed, contradicting the claim that two
samples of an originally closed path keep it closed. -/
theorem sample_points_two_samples_not_closed :
    exampleSquare.closed = true ∧
    sampleCount true
      (rectilinearLength (exampleSquare.applyTransform Affine.identity) - 0 - 0) 4 = 1 ∧
    (samplePointsSubpath rectilinearLength (fun _ _ => ((0, 0) : Vec2)) Affine.identity 4 0 0
        true exampleSquare).anchors.length = 2 ∧
    (samplePointsSubpath rectilinearLength (fun _ _ => ((0, 0) : Vec2)) Affine.identity 4 0 0
        true exampleSquare).closed = false := by
  have h3 : (0 : ℚ) < rectilinearLength (exampleSquare.applyTransform Affine.identity)
      - 0 - 0 := by
    rw [Subpath.applyTransform_identity, exampleSquare_length]
    norm_num
  have h4 : 1 ≤ sampleCount true
      (rectilinearLength (exampleSquare.applyTransform Affine.identity) - 0 - 0) 4 := by
    rw [exampleSquare_count_one]
  have hres := samplePointsSubpath_resample rectilinearLength (fun _ _ => ((0, 0) : Vec2))
    Affine.identity 4 0 0 true exampleSquare rfl (by norm_num) h3 h4
  refine ⟨rfl, exampleSquare_count_one, ?_, ?_⟩
  · rw [hres, Subpath.applyTransform_anchors_length,
      show ∀ (A : List Vec2) (flag : Bool), (Subpath.fromAnchors A flag).anchors = A
        from fun A flag => rfl,
      sampleAnchors_length, exampleSquare_count_one]
    rfl
  · rw [hres]
    show ((exampleSquare.applyTransform Affine.identity).closed
        && decide (1 < (sampleCount true
          (rectilinearLength (exampleSquare.applyTransform Affine.identity) - 0 - 0)
          4).toNat)) = false
    rw [exampleSquare_count_one]
    rfl

/-- C3 (amended): in the resampling branch the replacement path is marked
closed iff the original path was closed AND the sample count exceeds 1
(i.e. at least three samples); an originally closed path with count = 1
(two samples) comes out open. -/
theorem sample_points_closed_flag (arcLength : Subpath → ℚ)
    (evaluate : Subpath → ℚ → Vec2) (transform : Affine)
    (spacing start_offset stop_offset : ℚ) (adaptive_spacing : Bool) (subpath : Subpath)
    (h1 : subpath.isEmpty = false) (h2 : 0 < spacing)
    (h3 : 0 < arcLength (subpath.applyTransform transform) - start_offset - stop_offset)
    (h4 : 1 ≤ sampleCount adaptive_spacing
      (arcLength (subpath.applyTransform transform) - start_offset - stop_offset) spacing) :
    (samplePointsSubpath arcLength evaluate transform spacing start_offset stop_offset
        adaptive_spacing subpath).closed
      = (subpath.closed && decide (1 < (sampleCount adaptive_spacing
          (arcLength (subpath.applyTransform transform) - start_offset - stop_offset)
          spacing).toNat)) := by
  rw [samplePointsSubpath_resample arcLength evaluate transform spacing start_offset
    stop_offset adaptive_spacing subpath h1 h2 h3 h4]
  rfl

/-- C3 witness: at spacing 2 the square yields count 2 and the resampled
path IS closed, matching the amended flag. -/
theorem sample_points_closed_flag_witness :
    exampleSquare.isEmpty = false ∧ (0 : ℚ) < 2 ∧
    (0 : ℚ) < rectilinearLength (exampleSquare.applyTransform Affine.identity) - 0 - 0 ∧
    1 ≤ sampleCount true
      (rectilinearLength (exampleSquare.applyTransform Affine.identity) - 0 - 0) 2 ∧
    (samplePointsSubpath rectilinearLength (fun _ _ => ((0, 0) : Vec2)) Affine.identity 2 0 0
        true exampleSquare).closed
      = (exampleSquare.closed && decide (1 < (sampleCount true
          (rectilinearLength (exampleSquare.applyTransform Affine.identity) - 0 - 0)
          2).toNat)) := by
  have h3 : (0 : ℚ) < rectilinearLength (exampleSquare.applyTransform Affine.identity)
      - 0 - 0 := by
    rw [Subpath.applyTransform_identity, exampleSquare_length]
    norm_num
  have h4 : 1 ≤ sampleCount true
      (rectilinearLength (exampleSquare.applyTransform Affine.identity) - 0 - 0) 2 := by
    rw [Subpath.applyTransform_identity, exampleSquare_length]
    norm_num [sampleCount, roundAwayFromZero]
  exact ⟨rfl, by norm_num, h3, h4,
    sample_points_closed_flag rectilinearLength (fun _ _ => ((0, 0) : Vec2)) Affine.identity
      2 0 0 true exampleSquare rfl (by norm_num) h3 h4⟩

/-- An open horizontal segment of length 1. -/
def worldSpaceLeakPath : Subpath := { anchors := [(0, 0), (1, 0)], closed := false }

/-- The segment under a scene transform scaling by 2. -/
def worldSpaceLeakScene : VectorData :=
  { subpaths := [worldSpaceLeakPath], transform := scaleTwo
    style := PathStyle.default, mirror_angle := [], alpha_blending := AlphaBlending.default }

/-- C2 failing input: a non-empty path with positive spacing 1 whose usable
length `2 − 10 − 0 ≤ 0` is not left untouched: the node stores the path with
its anchors scaled into world space (the early exit skips the inverse
transform), so the stored local-space representation changes from
`[(0,0),(1,0)]` to `[(0,0),(2,0)]`. -/
theorem sample_points_unusable_length_leaves_world_space :
    worldSpaceLeakPath.isEmpty = false ∧ (0 : ℚ) < 1 ∧
    rectilinearLength (worldSpaceLeakPath.applyTransform scaleTwo) - 10 - 0 ≤ 0 ∧
    (sample_points rectilinearLength (fun _ _ => ((0, 0) : Vec2)) worldSpaceLeakScene 1 10 0
        false).subpaths
      = [{ anchors := [(0, 0), (2, 0)], closed := false }] ∧
    ¬ ((sample_points rectilinearLength (fun _ _ => ((0, 0) : Vec2)) worldSpaceLeakScene 1 10 0
        false).subpaths = worldSpaceLeakScene.subpaths) := by
  have hworld : worldSpaceLeakPath.applyTransform scaleTwo
      = { anchors := [(0, 0), (2, 0)], closed := false } := by
    norm_num [Subpath.applyTransform, Affine.transformPoint, scaleTwo, worldSpaceLeakPath,
      Prod.ext_iff]
  have hused : rectilinearLength (worldSpaceLeakPath.applyTransform scaleTwo) - 10 - 0 ≤ 0 := by
    rw [hworld]
    norm_num [rectilinearLength, axisSegmentLength]
  have h4th : (sample_points rectilinearLength (fun _ _ => ((0, 0) : Vec2)) worldSpaceLeakScene
      1 10 0 false).subpaths = [{ anchors := [(0, 0), (2, 0)], closed := false }] := by
    show List.map (samplePointsSubpath rectilinearLength (fun _ _ => ((0, 0) : Vec2))
      scaleTwo 1 10 0 false) [worldSpaceLeakPath] = _
    rw [List.map_cons, List.map_nil,
      samplePointsSubpath_skip_world rectilinearLength (fun _ _ => ((0, 0) : Vec2)) scaleTwo
        1 10 0 false worldSpaceLeakPath rfl (by norm_num) hused,
      hworld]
  refine ⟨rfl, by norm_num, hused, h4th, ?_⟩
  rw [h4th]
  decide

/-- C8: in adaptive mode the sample count is `round(used/spacing)`; with zero
offsets and count ≥ 1 the node's resampled anchors are the generated samples
(mapped back by the inverse transform), and the last generated sample is the
path evaluated at global-length parameter `t = L/L = 1`, i.e. arc-length
position `L`, the far end; in fixed mode the count is
`floor(used/spacing + ε)` and each sample is evaluated against the effective
length `used − (used mod spacing)`. -/
theorem sample_points_adaptive_last_sample_at_end
    (arcLength : Subpath → ℚ) (evaluate : Subpath → ℚ → Vec2) (transform : Affine)
    (spacing : ℚ) (subpath : Subpath)
    (h1 : subpath.isEmpty = false) (h2 : 0 < spacing)
    (hL : 0 < arcLength (subpath.applyTransform transform))
    (hc : 1 ≤ sampleCount true (arcLength (subpath.applyTransform transform)) spacing) :
    sampleCount true (arcLength (subpath.applyTransform transform)) spacing
      = roundAwayFromZero (arcLength (subpath.applyTransform transform) / spacing) ∧
    (samplePointsSubpath arcLength evaluate transform spacing 0 0 true subpath).anchors
      = (sampleAnchors evaluate (subpath.applyTransform transform) true
          (arcLength (subpath.applyTransform transform)) spacing 0
          (arcLength (subpath.applyTransform transform))
          (sampleCount true (arcLength (subpath.applyTransform transform)) spacing)).map
          transform.inverse.transformPoint ∧
    (sampleAnchors evaluate (subpath.applyTransform transform) true
        (arcLength (subpath.applyTransform transform)) spacing 0
        (arcLength (subpath.applyTransform transform))
        (sampleCount true (arcLength (subpath.applyTransform transform)) spacing)).getLast?
      = some (evaluate (subpath.applyTransform transform) 1) ∧
    (∀ used_length : ℚ, sampleCount false used_length spacing
      = ⌊used_length / spacing + f64Epsilon⌋) ∧
    (∀ (used_length s0 length : ℚ) (count : ℤ),
      sampleAnchors evaluate (subpath.applyTransform transform) false used_length spacing
          s0 length count
        = (List.range (count.toNat + 1)).map (fun (c : ℕ) =>
            evaluate (subpath.applyTransform transform)
              (((c : ℚ) / (count : ℚ) * (used_length - ratFmod used_length spacing) + s0)
                / length))) := by
  have hL0 : 0 < arcLength (subpath.applyTransform transform) - 0 - 0 := by
    rw [sub_zero, sub_zero]
    exact hL
  have hc0 : 1 ≤ sampleCount true
      (arcLength (subpath.applyTransform transform) - 0 - 0) spacing := by
    rw [sub_zero, sub_zero]
    exact hc
  refine ⟨rfl, ?_, ?_, fun u => rfl, fun u s0 L0 n => ?_⟩
  · rw [samplePointsSubpath_resample arcLength evaluate transform spacing 0 0 true subpath
      h1 h2 hL0 hc0]
    simp only [sub_zero]
    rfl
  · have hn1 : (1 : ℤ) ≤ sampleCount true (arcLength (subpath.applyTransform transform))
        spacing := hc
    have hnn : (0 : ℤ) ≤ sampleCount true (arcLength (subpath.applyTransform transform))
        spacing := le_trans zero_le_one hn1
    have hcast : (((sampleCount true (arcLength (subpath.applyTransform transform))
        spacing).toNat : ℚ))
        = ((sampleCount true (arcLength (subpath.applyTransform transform)) spacing : ℤ) : ℚ) := by
      exact_mod_cast congrArg (fun z : ℤ => (z : ℚ)) (Int.toNat_of_nonneg hnn)
    have hnq : ((sampleCount true (arcLength (subpath.applyTransform transform)) spacing : ℤ)
        : ℚ) ≠ 0 := by
      have h1q : (1 : ℚ) ≤ ((sampleCount true (arcLength (subpath.applyTransform transform))
          spacing : ℤ) : ℚ) := by
        exact_mod_cast hn1
      exact ne_of_gt (lt_of_lt_of_le zero_lt_one h1q)
    simp only [sampleAnchors]
    rw [List.range_succ, List.map_append, List.map_cons, List.map_nil, List.getLast?_concat]
    simp only [if_true]
    congr 2
    rw [hcast, div_self hnq, one_mul, add_zero, div_self (ne_of_gt hL)]
  · simp only [sampleAnchors, Bool.false_eq_true, if_false]

/-- C8 witness: on the unit square (arc length 4) with spacing 4 and the
curve evaluator `t ↦ (t, 0)`, the adaptive count is 1 and the last generated
sample is the evaluation at parameter 1. -/
theorem sample_points_adaptive_last_sample_at_end_witness :
    exampleSquare.isEmpty = false ∧ (0 : ℚ) < 4 ∧
    (0 : ℚ) < rectilinearLength (exampleSquare.applyTransform Affine.identity) ∧
    1 ≤ sampleCount true (rectilinearLength (exampleSquare.applyTransform Affine.identity)) 4 ∧
    (sampleAnchors (fun _ t => ((t, 0) : Vec2)) (exampleSquare.applyTransform Affine.identity)
        true (rectilinearLength (exampleSquare.applyTransform Affine.identity)) 4 0
        (rectilinearLength (exampleSquare.applyTransform Affine.identity))
        (sampleCount true (rectilinearLength (exampleSquare.applyTransform Affine.identity))
          4)).getLast?
      = some (((1 : ℚ), (0 : ℚ)) : Vec2) := by
  have hL : (0 : ℚ) < rectilinearLength (exampleSquare.applyTransform Affine.identity) := by
    rw [Subpath.applyTransform_identity, exampleSquare_length]
    norm_num
  have hc : 1 ≤ sampleCount true
      (rectilinearLength (exampleSquare.applyTransform Affine.identity)) 4 := by
    rw [Subpath.applyTransform_identity, exampleSquare_length]
    norm_num [sampleCount, roundAwayFromZero]
  exact ⟨rfl, by norm_num, hL, hc,
    (sample_points_adaptive_last_sample_at_end rectilinearLength (fun _ t => ((t, 0) : Vec2))
      Affine.identity 4 exampleSquare rfl (by norm_num) hL hc).2.2.1⟩
